import Mathlib

/-!
Shallow embedding of the stopkran pending-request coordinator
(`stopkran_daemon.py`) and of the requester-side hook (`stopkran_hook.py`).

Modelling conventions:
* The registry `pending` (a Python `dict` keyed by `request_id`, insertion
  ordered) is an association list `List (String × Entry)`; `pyGet`, `dictSet`
  and `pyPop` mirror `d.get(k)`, `d[k] = v` (replace in place, else append)
  and `d.pop(k, None)`.
* Telegram side effects (sending, editing and finalizing messages) are
  external; the daemon swallows their failures, so only the data they
  contribute to the state (`tg_message_id`) is modelled.  Whether the
  gateway raised during publish or finalize is an input oracle
  (`GatewayBehavior`).
* `asyncio.Event` is a boolean flag (`eventSet`); `set()` is idempotent.
* The connection handler suspends once, racing its entry's event against a
  timeout.  The race outcome is the input `WaitOutcome`, and the effect of
  concurrently running resolvers on the shared registry during the
  suspension is the input function `interfere` applied at the suspension
  point.
* Python string helpers are modelled on their ASCII behaviour (`lower`,
  `isdigit`, `int`): this is exact on every input the daemon's callback
  data and the claims exercise.
-/

/-- One option of an AskUserQuestion question: `{label, description}`. -/
structure QOption where
  label : String
  description : String
  deriving Repr, DecidableEq

/-- One question of an AskUserQuestion request: `{question, options}`. -/
structure Question where
  question : String
  options : List QOption
  deriving Repr, DecidableEq

/-- The `{"answers": {question_text: selected_label}}` payload the daemon
stores into `entry["answer"]`. -/
structure AnswerData where
  answers : List (String × String)
  deriving Repr, DecidableEq

/-- A registry entry, mirroring the dict created at
`stopkran_daemon.py:402-410`.  `decision` is `str | None` in the source;
`eventSet` is the internal flag of the entry's `asyncio.Event`. -/
structure Entry where
  decision : Option String
  eventSet : Bool
  tg_message_id : Option Nat
  tg_message_text : String
  tool_name : String
  questions : Option (List Question)
  answer : Option AnswerData
  deriving Repr, DecidableEq

/-- The pending-request registry: `request_id -> entry`, insertion ordered
like a Python dict. -/
abbrev Registry := List (String × Entry)

/-- `pending.get(request_id)`. -/
def pyGet : Registry → String → Option Entry
  | [], _ => none
  | (k', v) :: rest, k => if k' = k then some v else pyGet rest k

/-- `pending[request_id] = entry`: replace in place when the key exists
(keeping its position, as a Python dict does), otherwise append. -/
def dictSet : Registry → String → Entry → Registry
  | [], k, v => [(k, v)]
  | (k', v') :: rest, k, v =>
      if k' = k then (k, v) :: rest else (k', v') :: dictSet rest k v

/-- `pending.pop(request_id, None)` (ignoring the returned value). -/
def pyPop : Registry → String → Registry
  | [], _ => []
  | (k', v) :: rest, k => if k' = k then rest else (k', v) :: pyPop rest k

/-- The daemon configuration; only `chat_id` (the registered approver
identity) is consulted by the modelled code paths. -/
structure Config where
  chat_id : Option Int
  deriving Repr, DecidableEq

/-- Python's `x or default` for an optional string (`None` and `""` are
falsy). -/
def pyOr (x : Option String) (d : String) : String :=
  match x with
  | none => d
  | some s => if s = "" then d else s

/-- Python's `s.isdigit()`, restricted to ASCII digits. -/
def pyIsDigit (s : String) : Bool :=
  !s.data.isEmpty && s.data.all Char.isDigit

/-- The value of one ASCII digit character. -/
def digitVal (c : Char) : Option Nat :=
  if c.isDigit then some (c.toNat - '0'.toNat) else none

/-- Read a nonempty all-digit character list as a number. -/
def digitsToNat? (cs : List Char) : Option Nat :=
  if cs.isEmpty then none
  else cs.foldl
    (fun acc? c => acc?.bind (fun acc => (digitVal c).map (fun d => acc * 10 + d)))
    (some 0)

/-- Python's `int(s)` as a partial function (ASCII digits with an optional
leading minus sign; Python additionally accepts `+`, blanks and
underscores, which no caller produces). -/
def pyInt? (s : String) : Option Int :=
  match s.data with
  | '-' :: rest => (digitsToNat? rest).map (fun n => -(n : Int))
  | _ => (digitsToNat? s.data).map (fun n => (n : Int))

/-- Python's `s.lower()`, restricted to ASCII letters. -/
def pyLower (s : String) : String :=
  String.mk (s.data.map Char.toLower)

/-- Python's `s.strip()` (whitespace on both ends). -/
def pyStrip (s : String) : String :=
  String.mk
    (((s.data.dropWhile Char.isWhitespace).reverse.dropWhile
        Char.isWhitespace).reverse)

/-- Python's `s[:n]` (a prefix of `n` characters). -/
def pyTake (s : String) (n : Nat) : String :=
  String.mk (s.data.take n)

/-- Truthiness of an optional string (`None` and `""` are falsy). -/
def pyTruthyStr : Option String → Bool
  | none => false
  | some s => s ≠ ""

/-- Helper for `pySplit`: walk the characters, cutting at `sep` while the
remaining split budget is positive. -/
def pySplitAux (sep : Char) : Nat → List Char → List Char → List String
  | _, acc, [] => [String.mk acc.reverse]
  | maxs, acc, c :: cs =>
      if c = sep then
        match maxs with
        | 0 => pySplitAux sep 0 (c :: acc) cs
        | m + 1 => String.mk acc.reverse :: pySplitAux sep m [] cs
      else pySplitAux sep maxs (c :: acc) cs

/-- Python's `s.split(sep, maxsplit)` for a one-character separator. -/
def pySplit (s : String) (sep : Char) (maxs : Nat) : List String :=
  pySplitAux sep maxs [] s.data

/-- `resolve_request` (`stopkran_daemon.py:102-138`): look the entry up; if
absent return `False`; otherwise set `decision` to the action, set the
entry's event, and return `True`.  The Telegram message edit it then
attempts is external and its failures are swallowed. -/
def resolve_request (pending : Registry) (request_id action : String) :
    Registry × Bool :=
  match pyGet pending request_id with
  | none => (pending, false)
  | some entry =>
      (dictSet pending request_id
        { entry with decision := some action, eventSet := true }, true)

/-- `get_oldest_pending_request_id` (`stopkran_daemon.py:141-146`): first
entry in insertion order whose `decision` is still `None`. -/
def get_oldest_pending_request_id : Registry → Option String
  | [] => none
  | (rid, entry) :: rest =>
      if entry.decision = none then some rid
      else get_oldest_pending_request_id rest

/-- `ALLOW_PATTERNS` (`stopkran_daemon.py:150`). -/
def ALLOW_PATTERNS : List String :=
  ["да", "yes", "ок", "ok", "👍", "👍🏻", "👍🏼", "👍🏽", "👍🏾", "👍🏿", "✅"]

/-- `DENY_PATTERNS` (`stopkran_daemon.py:151`). -/
def DENY_PATTERNS : List String :=
  ["нет", "no", "👎", "👎🏻", "👎🏼", "👎🏽", "👎🏾", "👎🏿", "❌"]

/-- The `ans:<request_id>:<option_index>` branch of `callback_handler`
(`stopkran_daemon.py:181-206`), after the integer parse of the index:
look the entry up, validate the index against the first question's
options, record `answer = {"answers": {question: label}}`, and resolve
the entry as `allow`. -/
def answer_callback (request_id : String) (option_idx : Int)
    (pending : Registry) : Registry × String :=
  match pyGet pending request_id with
  | none => (pending, "Request expired or already handled")
  | some entry =>
      match entry.questions.getD [] with
      | [] => (pending, "No questions data")
      | q :: _ =>
          let options := q.options
          if option_idx < 0 ∨ option_idx ≥ options.length then
            (pending, "Invalid option index")
          else
            let selected := options.getD option_idx.toNat ⟨"", ""⟩
            let question_text := q.question
            let reg1 := dictSet pending request_id
              { entry with answer := some ⟨[(question_text, selected.label)]⟩ }
            let res := resolve_request reg1 request_id "allow"
            if res.2 then (res.1, "✅ " ++ selected.label)
            else (res.1, "Request expired or already handled")

/-- `callback_handler` (`stopkran_daemon.py:154-224`): owner check, split
of the callback data at `":"` (maxsplit 2), then the `ans`/`allow`/`deny`
dispatch.  Returns the updated registry and the acknowledgment shown to
the actor. -/
def callback_handler (cfg : Config) (from_user_id : Int) (data : String)
    (pending : Registry) : Registry × String :=
  if cfg.chat_id ≠ some from_user_id then (pending, "⛔ Not authorized")
  else if ¬ data.data.contains ':' then (pending, "Invalid callback")
  else
    let parts := pySplit data ':' 2
    let action := parts.headD ""
    if action = "ans" ∧ parts.length = 3 then
      match pyInt? (parts.getD 2 "") with
      | none => (pending, "Invalid option")
      | some option_idx => answer_callback (parts.getD 1 "") option_idx pending
    else if (action = "allow" ∨ action = "deny") ∧ 2 ≤ parts.length then
      let request_id := parts.getD 1 ""
      let res := resolve_request pending request_id action
      if res.2 then
        (res.1, (if action = "allow" then "✅ Allowed" else "❌ Denied"))
      else (res.1, "Request expired or already handled")
    else (pending, "Invalid action")

/-- The digit branch of `text_handler` (`stopkran_daemon.py:238-254`):
a bare number from the approver resolves the oldest pending entry when it
is an AskUserQuestion, interpreted as a 1-based option index.  `none`
means the branch fell through to the pattern matching below it. -/
def digit_reply (pending : Registry) (request_id text : String) :
    Option (Registry × String) :=
  match pyGet pending request_id with
  | none => none
  | some entry =>
      if entry.tool_name = "AskUserQuestion" then
        match pyInt? text with
        | none => none
        | some n =>
            let option_idx := n - 1
            match entry.questions.getD [] with
            | [] => none
            | q :: _ =>
                let options := q.options
                if 0 ≤ option_idx ∧ option_idx < options.length then
                  let selected := options.getD option_idx.toNat ⟨"", ""⟩
                  let reg1 := dictSet pending request_id
                    { entry with
                        answer := some ⟨[(q.question, selected.label)]⟩ }
                  let res := resolve_request reg1 request_id "allow"
                  some (if res.2 then (res.1, "✅ " ++ selected.label)
                        else (res.1, "Request already handled."))
                else none
      else none

/-- `text_handler` (`stopkran_daemon.py:227-272`): owner check, strip and
lowercase the text, try the digit branch against the oldest pending
request, then the quick-reply vocabulary.  Returns the updated registry
and the reply sent back to the approver (if any). -/
def text_handler (cfg : Config) (chat_id : Int) (msg : String)
    (pending : Registry) : Registry × Option String :=
  if cfg.chat_id ≠ some chat_id then (pending, none)
  else
    let text := pyLower (pyStrip msg)
    let request_id? := get_oldest_pending_request_id pending
    let digitRes :=
      if pyIsDigit text ∧ pyTruthyStr request_id? then
        match request_id? with
        | some rid => digit_reply pending rid text
        | none => none
      else none
    match digitRes with
    | some res => (res.1, some res.2)
    | none =>
        if ALLOW_PATTERNS.contains text ∨ DENY_PATTERNS.contains text then
          let action := if ALLOW_PATTERNS.contains text then "allow" else "deny"
          match request_id? with
          | none => (pending, some "No pending requests.")
          | some rid =>
              let res := resolve_request pending rid action
              if res.2 then
                (res.1, some ((if action = "allow" then "✅" else "❌") ++ " Done"))
              else (res.1, some "Request already handled.")
        else (pending, none)

/-- `cmd_start` result: the (possibly updated) configuration, whether
`save_config` was called, and the reply text. -/
structure StartResult where
  cfg : Config
  saved : Bool
  reply : String
  deriving Repr, DecidableEq

/-- `cmd_start` (`stopkran_daemon.py:69-85`): register the first user as
the owner; a repeat claim by the owner and a claim by anyone else leave
the configuration untouched. -/
def cmd_start (cfg : Config) (chat_id : Int) : StartResult :=
  match cfg.chat_id with
  | none =>
      ⟨{ cfg with chat_id := some chat_id }, true,
        "✅ Registered! Chat ID: " ++ toString chat_id ++
          "\nYou will now receive permission requests here."⟩
  | some owner =>
      if owner = chat_id then
        ⟨cfg, false, "You are already registered as the owner."⟩
      else ⟨cfg, false, "⛔ Another owner is already registered."⟩

/-- The `tool_input` payload of a request, with the keys the daemon's
formatters read (each folded with its `.get(..., "")` default); `dumped`
stands for the opaque `json.dumps(tool_input)` rendering used for tools
the formatter has no special case for. -/
structure ToolInput where
  command : String
  file_path : String
  old_string : String
  new_string : String
  content : String
  questions : List Question
  dumped : String
  deriving Repr, DecidableEq

/-- One parsed request record from the hook (the hook always sends every
key, so the daemon's `.get` defaults are folded into the fields). -/
structure HookRequest where
  request_id : String
  session_id : String
  tool_name : String
  tool_input : ToolInput
  cwd : String
  deriving Repr, DecidableEq

/-- One numbered option line of `format_ask_message`
(`stopkran_daemon.py:290-296`). -/
def formatOptionLine (i : Nat) (opt : QOption) : String :=
  if opt.description ≠ "" then
    toString i ++ ". " ++ opt.label ++ " — " ++ opt.description
  else toString i ++ ". " ++ opt.label

/-- `format_ask_message` (`stopkran_daemon.py:279-302`): render the
question blocks and return them with the question list. -/
def format_ask_message (req : HookRequest) : String × List Question :=
  let questions := req.tool_input.questions
  let session := pyTake req.session_id 8
  let qLines := (questions.map (fun q =>
      [q.question, ""] ++
        ((List.range q.options.length).zip q.options).map
          (fun p => formatOptionLine (p.1 + 1) p.2) ++ [""])).flatten
  let lines := ["❓ Вопрос от Claude", ""] ++ qLines ++
      (if session ≠ "" then ["Session: " ++ session] else [])
  (pyStrip (String.intercalate "\n" lines), questions)

/-- `format_request_message` (`stopkran_daemon.py:305-337`). -/
def format_request_message (req : HookRequest) : String :=
  let tool := req.tool_name
  let cwd := req.cwd
  let session := pyTake req.session_id 8
  let ti := req.tool_input
  let snippet :=
    if tool = "Bash" then ti.command
    else if tool = "Edit" then
      ti.file_path ++ "\n-  " ++ pyTake ti.old_string 120 ++
        "\n+  " ++ pyTake ti.new_string 120
    else if tool = "Write" then ti.file_path ++ "\n" ++ pyTake ti.content 200
    else pyTake ti.dumped 300
  let lines := ["🔐 Permission Request", "",
      (if cwd ≠ "" then "📂 " ++ cwd else ""), "🔧 " ++ tool, "", snippet] ++
      (if session ≠ "" then ["", "Session: " ++ session] else [])
  String.intercalate "\n" lines

/-- The prompt text and question list computed by the handler
(`stopkran_daemon.py:372-394`): `format_ask_message` for an
AskUserQuestion request (questions kept), `format_request_message`
otherwise (questions `None`). -/
def buildPrompt (req : HookRequest) : String × Option (List Question) :=
  if req.tool_name = "AskUserQuestion" then
    let fa := format_ask_message req
    (fa.1, some fa.2)
  else (format_request_message req, none)

/-- The fresh entry the handler stores at `stopkran_daemon.py:402-410`. -/
def initialEntry (req : HookRequest) : Entry :=
  { decision := none, eventSet := false, tg_message_id := none,
    tg_message_text := (buildPrompt req).1, tool_name := req.tool_name,
    questions := (buildPrompt req).2, answer := none }

/-- The registry after `pending[request_id] = {...}`
(`stopkran_daemon.py:402`): an unconditional dict assignment — an
existing live entry with the same id is silently replaced. -/
def registryAfterCreate (pending : Registry) (req : HookRequest) : Registry :=
  dictSet pending req.request_id (initialEntry req)

/-- The registry after the prompt was published and
`pending[request_id]["tg_message_id"] = msg.message_id` ran
(`stopkran_daemon.py:412-417`). -/
def registryAfterPublish (pending : Registry) (req : HookRequest)
    (mid : Nat) : Registry :=
  dictSet (registryAfterCreate pending req) req.request_id
    { initialEntry req with tg_message_id := some mid }

/-- How the single read of the request record went: `wait_for(readline)`
timed out, the peer closed without data, or a line arrived whose JSON
parse (including the `req["request_id"]` key access) succeeded or not. -/
inductive ReadResult where
  | readTimeout : ReadResult
  | emptyLine : ReadResult
  | line : Option HookRequest → ReadResult
  deriving Repr, DecidableEq

/-- Outcome of the race between the entry's event and the timeout
(`stopkran_daemon.py:420-423`). -/
inductive WaitOutcome where
  | timedOut : WaitOutcome
  | signaled : WaitOutcome
  deriving Repr, DecidableEq

/-- Gateway oracle for one connection: `sendOk` is the message id when
`send_message` succeeds (`none` = it raised), `finalizeFails` says
whether the timed-out finalize edit raised (it is caught either way). -/
structure GatewayBehavior where
  sendOk : Option Nat
  finalizeFails : Bool
  deriving Repr, DecidableEq

/-- The one response record `{decision, updatedInput?}` written back to
the hook (`stopkran_daemon.py:445-448`). -/
structure RespData where
  decision : String
  updatedInput : Option AnswerData
  deriving Repr, DecidableEq

/-- Result of one connection: the response written (if any), the registry
it leaves behind, whether the connection was closed, and whether a
finalize edit failed (and was swallowed) on the timeout path. -/
structure ConnResult where
  response : Option RespData
  pendingAfter : Registry
  closed : Bool
  finalizeFailed : Bool
  deriving Repr, DecidableEq

/-- The entry snapshot default: `pending.get(request_id) or {}` with each
`.get` on the empty dict yielding `None`. -/
def emptyEntry : Entry :=
  { decision := none, eventSet := false, tg_message_id := none,
    tg_message_text := "", tool_name := "", questions := none, answer := none }

/-- The cleanup-and-respond tail of the handler
(`stopkran_daemon.py:438-450`): snapshot the entry, pop it, and write
`{decision, updatedInput?}`. -/
def sendDecisionBack (reg : Registry) (request_id decision : String) :
    ConnResult :=
  let snapshot := (pyGet reg request_id).getD emptyEntry
  { response := some ⟨decision, snapshot.answer⟩,
    pendingAfter := pyPop reg request_id, closed := true,
    finalizeFailed := false }

/-- `handle_hook_connection` (`stopkran_daemon.py:344-460`).  Every branch
closes the connection (the `finally`).  A read timeout, an empty line or
a parse failure produce no response.  With no registered owner the
response is an immediate deny and the registry is untouched.  Otherwise
the entry is created, the prompt published (a raised `send_message`
aborts with no response, the entry left behind), and the handler
suspends; `interfere` is the concurrent resolvers' effect on the shared
registry during the suspension.  On timeout the decision is `deny` and
the finalize failure, if any, is swallowed; on a signal the decision is
read from the entry (`or "deny"`). -/
def handle_hook_connection (cfg : Config) (input : ReadResult)
    (pending : Registry) (gw : GatewayBehavior) (wait : WaitOutcome)
    (interfere : Registry → Registry) : ConnResult :=
  match input with
  | .readTimeout => ⟨none, pending, true, false⟩
  | .emptyLine => ⟨none, pending, true, false⟩
  | .line none => ⟨none, pending, true, false⟩
  | .line (some req) =>
      match cfg.chat_id with
      | none => ⟨some ⟨"deny", none⟩, pending, true, false⟩
      | some _ =>
          let rid := req.request_id
          match gw.sendOk with
          | none => ⟨none, registryAfterCreate pending req, true, false⟩
          | some mid =>
              let regWake := interfere (registryAfterPublish pending req mid)
              match wait with
              | .timedOut =>
                  { sendDecisionBack regWake rid "deny" with
                      finalizeFailed := gw.finalizeFails }
              | .signaled =>
                  match pyGet regWake rid with
                  | none => ⟨none, regWake, true, false⟩
                  | some e => sendDecisionBack regWake rid (pyOr e.decision "deny")

/-- A response record as the hook reads it (`stopkran_hook.py:63-66`):
`decision` may be missing; `updatedInput` and `updatedPermissions` are
opaque JSON fragments carried through unchanged. -/
structure HookResponse where
  decision : Option String
  updatedInput : Option String
  updatedPermissions : Option String
  deriving Repr, DecidableEq

/-- The decision object the hook emits (`stopkran_hook.py:79-97`). -/
inductive HookDecision where
  | allow : Option String → Option String → HookDecision
  | deny : HookDecision
  deriving Repr, DecidableEq

/-- The decision logic of the hook's `main` (`stopkran_hook.py:63-97`):
`response.get("decision", "deny")`, then allow exactly when it equals
`"allow"` (carrying `updatedInput` / `updatedPermissions` when present),
deny otherwise. -/
def hook_decide (resp : HookResponse) : HookDecision :=
  let decision := resp.decision.getD "deny"
  if decision = "allow" then
    HookDecision.allow resp.updatedInput resp.updatedPermissions
  else HookDecision.deny

/-! ### Registry helper lemmas -/

theorem pyGet_dictSet_self (p : Registry) (k : String) (v : Entry) :
    pyGet (dictSet p k v) k = some v := by
  induction p with
  | nil => simp [dictSet, pyGet]
  | cons hd tl ih =>
      obtain ⟨k', v'⟩ := hd
      by_cases h : k' = k <;> simp [dictSet, pyGet, h, ih]

theorem dictSet_dictSet (p : Registry) (k : String) (v1 v2 : Entry) :
    dictSet (dictSet p k v1) k v2 = dictSet p k v2 := by
  induction p with
  | nil => simp [dictSet]
  | cons hd tl ih =>
      obtain ⟨k', v'⟩ := hd
      by_cases h : k' = k <;> simp [dictSet, h, ih]

theorem pyGet_eq_none_iff (p : Registry) (k : String) :
    pyGet p k = none ↔ k ∉ p.map Prod.fst := by
  induction p with
  | nil => simp [pyGet]
  | cons hd tl ih =>
      obtain ⟨k', v'⟩ := hd
      by_cases h : k' = k
      · simp [pyGet, h]
      · have h' : ¬ k = k' := fun e => h e.symm
        simp [pyGet, h, h', ih]

theorem dictSet_map_fst_of_present (p : Registry) (k : String) (v : Entry)
    (h : pyGet p k ≠ none) :
    (dictSet p k v).map Prod.fst = p.map Prod.fst := by
  induction p with
  | nil => simp [pyGet] at h
  | cons hd tl ih =>
      obtain ⟨k', v'⟩ := hd
      by_cases hk : k' = k
      · simp [dictSet, hk]
      · simp [pyGet, hk] at h
        simp [dictSet, hk, ih h]

theorem dictSet_map_fst_of_absent (p : Registry) (k : String) (v : Entry)
    (h : pyGet p k = none) :
    (dictSet p k v).map Prod.fst = p.map Prod.fst ++ [k] := by
  induction p with
  | nil => simp [dictSet]
  | cons hd tl ih =>
      obtain ⟨k', v'⟩ := hd
      by_cases hk : k' = k
      · simp [pyGet, hk] at h
      · simp [pyGet, hk] at h
        simp [dictSet, hk, ih h]

theorem dictSet_length_of_present (p : Registry) (k : String) (v : Entry)
    (h : pyGet p k ≠ none) :
    (dictSet p k v).length = p.length := by
  induction p with
  | nil => simp [pyGet] at h
  | cons hd tl ih =>
      obtain ⟨k', v'⟩ := hd
      by_cases hk : k' = k
      · simp [dictSet, hk]
      · simp [pyGet, hk] at h
        simp [dictSet, hk, ih h]

/-! ### Concrete fixtures -/

/-- A configuration with owner chat id 7. -/
def cfgOwner : Config := ⟨some 7⟩

/-- A configuration with no registered owner. -/
def cfgNone : Config := ⟨none⟩

/-- An undecided binary (Bash) entry. -/
def entryU : Entry :=
  { decision := none, eventSet := false, tg_message_id := some 11,
    tg_message_text := "prompt", tool_name := "Bash", questions := none,
    answer := none }

/-- `entryU` after it has been resolved as `allow`. -/
def decidedEntry : Entry :=
  { entryU with decision := some "allow", eventSet := true }

/-- A three-option question. -/
def askQ : Question :=
  ⟨"Pick one", [⟨"Yes", ""⟩, ⟨"No", ""⟩, ⟨"Maybe", ""⟩]⟩

/-- An undecided AskUserQuestion entry carrying `askQ`. -/
def askEntry : Entry :=
  { decision := none, eventSet := false, tg_message_id := some 12,
    tg_message_text := "q", tool_name := "AskUserQuestion",
    questions := some [askQ], answer := none }

/-- A registry holding the single AskUserQuestion entry `req1`. -/
def regAsk : Registry := [("req1", askEntry)]

/-- A Bash `tool_input`. -/
def tiBash : ToolInput := ⟨"ls -la", "", "", "", "", [], ""⟩

/-- A concrete request record with id `A`. -/
def reqA : HookRequest := ⟨"A", "sess0001", "Bash", tiBash, "/home"⟩

/-- Three undecided entries inserted in order A, B, C. -/
def regABC : Registry := [("A", entryU), ("B", entryU), ("C", entryU)]

/-- `regABC` after A was resolved as `allow`. -/
def regABCafterA : Registry :=
  [("A", decidedEntry), ("B", entryU), ("C", entryU)]

/-- `regABC` after A and then B were resolved as `allow`. -/
def regABCafterAB : Registry :=
  [("A", decidedEntry), ("B", decidedEntry), ("C", entryU)]

/-! ### Claim theorems -/

/-- Claim C1 counterexample: a live entry that is already decided
(`decision = "allow"`, event set) is re-resolved by `resolve_request`
with `"deny"`: the call reports success (`true`, so the actor is shown
`❌ Denied`, not `already handled`) and `decision` is overwritten from
`allow` to `deny`, contradicting the claimed once-only transition. -/
theorem c1_decided_live_entry_is_overwritten :
    resolve_request [("A", decidedEntry)] "A" "deny" =
      ([("A", { decidedEntry with decision := some "deny" })], true) := by
  rfl

/-- Claim C1 (amended): `resolve_request` is a no-op reporting "already
handled" only when the request id is absent from the registry (the entry
was already finalized and removed, or never existed); on any live entry
— decided or not — it overwrites `decision` with the new action, reports
success, and (idempotently) sets the suspension event, so a second
resolution of a still-live entry also succeeds and replaces the
decision. -/
theorem c1_already_handled_only_when_absent :
    ∀ (pending : Registry) (rid a1 a2 : String),
      (pyGet pending rid = none →
        resolve_request pending rid a1 = (pending, false)) ∧
      (∀ e, pyGet pending rid = some e →
        resolve_request pending rid a1 =
          (dictSet pending rid { e with decision := some a1, eventSet := true },
            true) ∧
        (resolve_request (resolve_request pending rid a1).1 rid a2).2 = true ∧
        pyGet (resolve_request (resolve_request pending rid a1).1 rid a2).1 rid =
          some { e with decision := some a2, eventSet := true }) := by
  intro pending rid a1 a2
  constructor
  · intro h
    simp [resolve_request, h]
  · intro e he
    have h1 : resolve_request pending rid a1 =
        (dictSet pending rid { e with decision := some a1, eventSet := true },
          true) := by
      simp [resolve_request, he]
    refine ⟨h1, ?_, ?_⟩
    · rw [h1]
      simp [resolve_request, pyGet_dictSet_self]
    · rw [h1]
      simp [resolve_request, pyGet_dictSet_self, dictSet_dictSet]

/-- Claim C1 witness: the amended statement at a concrete registry. -/
theorem c1_witness :
    resolve_request [("A", entryU)] "A" "allow" =
      (dictSet [("A", entryU)] "A"
        { entryU with decision := some "allow", eventSet := true }, true) ∧
    pyGet (resolve_request (resolve_request [("A", entryU)] "A" "allow").1
        "A" "deny").1 "A" =
      some { entryU with decision := some "deny", eventSet := true } := by
  have h := (c1_already_handled_only_when_absent [("A", entryU)] "A"
    "allow" "deny").2 entryU rfl
  exact ⟨h.1, h.2.2⟩

/-- Claim C2: with no registered owner (`chat_id` absent) the handler
writes an immediate `deny` response and creates no registry entry. -/
theorem c2_no_owner_denies_without_entry :
    ∀ (cfg : Config) (req : HookRequest) (pending : Registry)
      (gw : GatewayBehavior) (wait : WaitOutcome)
      (interfere : Registry → Registry),
      cfg.chat_id = none →
      handle_hook_connection cfg (ReadResult.line (some req)) pending gw wait
          interfere =
        ⟨some ⟨"deny", none⟩, pending, true, false⟩ := by
  intro cfg req pending gw wait interfere h
  obtain ⟨cid⟩ := cfg
  cases h
  rfl

/-- Claim C2 witness. -/
theorem c2_witness :
    handle_hook_connection cfgNone (ReadResult.line (some reqA)) []
        ⟨none, false⟩ WaitOutcome.timedOut id =
      ⟨some ⟨"deny", none⟩, [], true, false⟩ :=
  c2_no_owner_denies_without_entry cfgNone reqA [] ⟨none, false⟩
    WaitOutcome.timedOut id rfl

/-- Claim C9: the owner identity is write-once: the first `/start`
claimant is recorded and persisted; a repeat claim by the owner changes
nothing; a claim by anyone else is rejected with the configuration
untouched; and after a first claim, a different chat can never replace
the recorded identity. -/
theorem c9_owner_identity_write_once :
    ∀ (cfg : Config) (cid : Int),
      (cfg.chat_id = none →
        cmd_start cfg cid = ⟨⟨some cid⟩, true,
          "✅ Registered! Chat ID: " ++ toString cid ++
            "\nYou will now receive permission requests here."⟩) ∧
      (cfg.chat_id = some cid →
        cmd_start cfg cid =
          ⟨cfg, false, "You are already registered as the owner."⟩) ∧
      (∀ other, cfg.chat_id = some other → other ≠ cid →
        cmd_start cfg cid =
          ⟨cfg, false, "⛔ Another owner is already registered."⟩) ∧
      (∀ c2, cfg.chat_id = none → c2 ≠ cid →
        (cmd_start (cmd_start cfg cid).cfg c2).cfg = ⟨some cid⟩ ∧
        (cmd_start (cmd_start cfg cid).cfg c2).saved = false) := by
  intro cfg cid
  obtain ⟨oc⟩ := cfg
  refine ⟨?_, ?_, ?_, ?_⟩
  · intro h
    cases h
    rfl
  · intro h
    cases h
    simp [cmd_start]
  · intro other h hne
    cases h
    simp [cmd_start, hne]
  · intro c2 h hne
    cases h
    have hne' : ¬ cid = c2 := fun e => hne e.symm
    simp [cmd_start, hne']

/-- Claim C9 witness: chat 7 claims an unowned configuration, then chat 8
fails to take it over. -/
theorem c9_witness :
    cmd_start cfgNone 7 = ⟨⟨some 7⟩, true,
      "✅ Registered! Chat ID: " ++ toString (7 : Int) ++
        "\nYou will now receive permission requests here."⟩ ∧
    (cmd_start (cmd_start cfgNone 7).cfg 8).cfg = ⟨some 7⟩ ∧
    (cmd_start (cmd_start cfgNone 7).cfg 8).saved = false := by
  have h := c9_owner_identity_write_once cfgNone 7
  exact ⟨h.1 rfl, (h.2.2.2 8 rfl (by decide)).1, (h.2.2.2 8 rfl (by decide)).2⟩

/-- Claim C10: the hook emits an allow decision exactly when the response
record's `decision` field is the exact string `"allow"` (carrying the
optional `updatedInput` / `updatedPermissions` through); any other value,
including a missing field, yields a deny decision. -/
theorem c10_only_exact_allow :
    ∀ resp : HookResponse,
      (resp.decision ≠ some "allow" → hook_decide resp = HookDecision.deny) ∧
      (resp.decision = some "allow" →
        hook_decide resp =
          HookDecision.allow resp.updatedInput resp.updatedPermissions) := by
  intro resp
  constructor
  · intro h
    unfold hook_decide
    cases hd : resp.decision with
    | none => simp
    | some s =>
        have hs : ¬ s = "allow" := fun e => h (by rw [hd, e])
        simp [hs]
  · intro h
    simp [hook_decide, h]

/-- Claim C10 witness: a missing decision field denies; an exact
`"allow"` allows and carries `updatedInput`. -/
theorem c10_witness :
    hook_decide ⟨none, none, none⟩ = HookDecision.deny ∧
    hook_decide ⟨some "allow", some "u", none⟩ =
      HookDecision.allow (some "u") none :=
  ⟨(c10_only_exact_allow ⟨none, none, none⟩).1 (by decide),
    (c10_only_exact_allow ⟨some "allow", some "u", none⟩).2 rfl⟩

/-- Claim C3: when the wait times out, the handler responds `deny`,
removes the entry from the registry it observes at wake-up, and writes
the response whether or not the finalize edit failed (the failure is
swallowed); the response is identical for a failing and a succeeding
finalize. -/
theorem c3_timeout_denies_removes_responds :
    ∀ (cfg : Config) (c : Int) (req : HookRequest) (pending : Registry)
      (mid : Nat) (ff : Bool) (interfere : Registry → Registry),
      cfg.chat_id = some c →
      (handle_hook_connection cfg (ReadResult.line (some req)) pending
          ⟨some mid, ff⟩ WaitOutcome.timedOut interfere).response.map
          RespData.decision = some "deny" ∧
      (handle_hook_connection cfg (ReadResult.line (some req)) pending
          ⟨some mid, ff⟩ WaitOutcome.timedOut interfere).pendingAfter =
        pyPop (interfere (registryAfterPublish pending req mid))
          req.request_id ∧
      (handle_hook_connection cfg (ReadResult.line (some req)) pending
          ⟨some mid, ff⟩ WaitOutcome.timedOut interfere).closed = true ∧
      (handle_hook_connection cfg (ReadResult.line (some req)) pending
          ⟨some mid, ff⟩ WaitOutcome.timedOut interfere).finalizeFailed = ff ∧
      (handle_hook_connection cfg (ReadResult.line (some req)) pending
          ⟨some mid, true⟩ WaitOutcome.timedOut interfere).response =
        (handle_hook_connection cfg (ReadResult.line (some req)) pending
          ⟨some mid, false⟩ WaitOutcome.timedOut interfere).response := by
  intro cfg c req pending mid ff interfere h
  obtain ⟨cid⟩ := cfg
  cases h
  exact ⟨rfl, rfl, rfl, rfl, rfl⟩

/-- Claim C3 witness: a concrete timed-out request with a failing
finalize still gets its `deny` response and its entry removed. -/
theorem c3_witness :
    (handle_hook_connection cfgOwner (ReadResult.line (some reqA)) []
        ⟨some 3, true⟩ WaitOutcome.timedOut id).response.map
        RespData.decision = some "deny" ∧
    (handle_hook_connection cfgOwner (ReadResult.line (some reqA)) []
        ⟨some 3, true⟩ WaitOutcome.timedOut id).pendingAfter =
      pyPop (id (registryAfterPublish [] reqA 3)) reqA.request_id ∧
    (handle_hook_connection cfgOwner (ReadResult.line (some reqA)) []
        ⟨some 3, true⟩ WaitOutcome.timedOut id).closed = true := by
  have h := c3_timeout_denies_removes_responds cfgOwner 7 reqA [] 3 true id rfl
  exact ⟨h.1, h.2.1, h.2.2.1⟩

/-- Claim C4 counterexample: creating an entry whose `request_id` is
already live does not fail with `DuplicateId` and does not reject the new
request: `pending[request_id] = {...}` silently replaces the old live
entry with the fresh one, and the new request is processed to a normal
response (here a timeout deny). -/
theorem c4_duplicate_id_overwrites_not_rejects :
    pyGet (registryAfterCreate [("A", decidedEntry)] reqA) "A" =
      some (initialEntry reqA) ∧
    initialEntry reqA ≠ decidedEntry ∧
    (handle_hook_connection cfgOwner (ReadResult.line (some reqA))
        [("A", decidedEntry)] ⟨some 3, false⟩ WaitOutcome.timedOut
        id).response = some ⟨"deny", none⟩ := by
  refine ⟨rfl, ?_, rfl⟩
  intro h
  exact absurd (congrArg Entry.decision h) (by decide)

/-- Claim C4 (amended): entry creation never fails: `d[k] = v` makes `k`
map to `v`, replaces in place when `k` was already live (same key set,
same length), and preserves key uniqueness — a `request_id` maps to at
most one live entry because assignment overwrites, not because a
duplicate is rejected. -/
theorem c4_create_replaces_in_place :
    ∀ (p : Registry) (k : String) (v : Entry),
      pyGet (dictSet p k v) k = some v ∧
      ((p.map Prod.fst).Nodup → ((dictSet p k v).map Prod.fst).Nodup) ∧
      (pyGet p k ≠ none → (dictSet p k v).length = p.length) := by
  intro p k v
  refine ⟨pyGet_dictSet_self p k v, ?_, dictSet_length_of_present p k v⟩
  intro hnd
  by_cases h : pyGet p k = none
  · rw [dictSet_map_fst_of_absent p k v h]
    have hk : k ∉ p.map Prod.fst := (pyGet_eq_none_iff p k).1 h
    simp [List.nodup_append, hnd, hk]
  · rw [dictSet_map_fst_of_present p k v h]
    exact hnd

/-- Claim C4 witness: replacing the live entry `A` keeps the key set and
the registry size. -/
theorem c4_witness :
    pyGet (dictSet [("A", entryU)] "A" decidedEntry) "A" =
      some decidedEntry ∧
    (dictSet [("A", entryU)] "A" decidedEntry).length =
      ([("A", entryU)] : Registry).length := by
  have h := c4_create_replaces_in_place [("A", entryU)] "A" decidedEntry
  exact ⟨h.1, h.2.2 (by decide)⟩

/-- Claim C5: an in-bounds option selection records
`answer = {"answers": {question_text: option_label}}` on the entry and
resolves it as `allow`; concretely, against options
`["Yes", "No", "Maybe"]` the callback `ans:req1:1` yields `allow` with
selected answer `{"Pick one": "No"}` and acknowledgment `✅ No`. -/
theorem c5_in_range_option_resolves_allow :
    (∀ (pending : Registry) (rid : String) (e : Entry) (q : Question)
       (qs : List Question) (idx : Nat),
       pyGet pending rid = some e →
       e.questions.getD [] = q :: qs →
       idx < q.options.length →
       answer_callback rid (idx : Int) pending =
         (dictSet pending rid
            { e with
                answer :=
                  some ⟨[(q.question, (q.options.getD idx ⟨"", ""⟩).label)]⟩,
                decision := some "allow", eventSet := true },
          "✅ " ++ (q.options.getD idx ⟨"", ""⟩).label)) ∧
    callback_handler cfgOwner 7 "ans:req1:1" regAsk =
      ([("req1",
          { askEntry with
              answer := some ⟨[("Pick one", "No")]⟩,
              decision := some "allow", eventSet := true })], "✅ No") := by
  constructor
  · intro pending rid e q qs idx h1 h2 h3
    have hcond :
        ¬ ((idx : Int) < 0 ∨ (idx : Int) ≥ (q.options.length : Int)) := by
      omega
    unfold answer_callback
    simp only [h1, h2]
    rw [if_neg hcond]
    simp only [resolve_request, pyGet_dictSet_self, dictSet_dictSet,
      Int.toNat_natCast]
    simp
  · rfl

/-- Claim C5 witness: the general statement at the concrete
three-option registry, index 1. -/
theorem c5_witness :
    answer_callback "req1" ((1 : Nat) : Int) regAsk =
      (dictSet regAsk "req1"
        { askEntry with
            answer :=
              some ⟨[(askQ.question, (askQ.options.getD 1 ⟨"", ""⟩).label)]⟩,
            decision := some "allow", eventSet := true },
       "✅ " ++ (askQ.options.getD 1 ⟨"", ""⟩).label) :=
  c5_in_range_option_resolves_allow.1 regAsk "req1" askEntry askQ [] 1
    rfl rfl (by decide)

/-- Claim C6: an out-of-range option selection (negative index or index
at least the number of options of the entry's first question) is
rejected with the `Invalid option index` acknowledgment and leaves the
registry — hence the entry's `decision`, `answer` and event — completely
unchanged. -/
theorem c6_out_of_range_option_rejected :
    ∀ (pending : Registry) (rid : String) (e : Entry) (q : Question)
      (qs : List Question) (idx : Int),
      pyGet pending rid = some e →
      e.questions.getD [] = q :: qs →
      (idx < 0 ∨ idx ≥ (q.options.length : Int)) →
      answer_callback rid idx pending = (pending, "Invalid option index") := by
  intro pending rid e q qs idx h1 h2 h3
  unfold answer_callback
  simp only [h1, h2]
  rw [if_pos h3]

/-- Claim C6 witness: index 5 against the three options of `req1`. -/
theorem c6_witness :
    answer_callback "req1" 5 regAsk = (regAsk, "Invalid option index") :=
  c6_out_of_range_option_rejected regAsk "req1" askEntry askQ [] 5
    rfl rfl (by decide)

/-- Claim C7: `get_oldest_pending_request_id` is exactly the first entry
in insertion order whose decision is still `None` (`List.find?`), `none`
when every entry is decided; and on an A, B, C registry a quick-reply
`yes` resolves A, then a second `yes` resolves B. -/
theorem c7_oldest_undecided_first_match :
    (∀ pending : Registry,
       get_oldest_pending_request_id pending =
         (pending.find? (fun p => p.2.decision.isNone)).map Prod.fst) ∧
    text_handler cfgOwner 7 "yes" regABC = (regABCafterA, some "✅ Done") ∧
    text_handler cfgOwner 7 "yes" regABCafterA =
      (regABCafterAB, some "✅ Done") := by
  refine ⟨?_, rfl, rfl⟩
  intro pending
  induction pending with
  | nil => rfl
  | cons hd tl ih =>
      obtain ⟨rid, e⟩ := hd
      by_cases h : e.decision = none
      · simp [get_oldest_pending_request_id, List.find?_cons, h]
      · have h' : e.decision.isSome = true := by
          simp [Option.isSome_iff_ne_none, h]
        simp [get_oldest_pending_request_id, List.find?_cons, h, h', ih]

/-- Claim C8: the connection is closed on every exit path, and a read
timeout, an empty read or an unparsable record terminate the connection
with no response written and the registry untouched. -/
theorem c8_always_closed_no_response_on_bad_read :
    (∀ (cfg : Config) (input : ReadResult) (pending : Registry)
       (gw : GatewayBehavior) (wait : WaitOutcome)
       (interfere : Registry → Registry),
       (handle_hook_connection cfg input pending gw wait interfere).closed =
         true) ∧
    (∀ (cfg : Config) (input : ReadResult) (pending : Registry)
       (gw : GatewayBehavior) (wait : WaitOutcome)
       (interfere : Registry → Registry),
       (input = ReadResult.readTimeout ∨ input = ReadResult.emptyLine ∨
           input = ReadResult.line none) →
       (handle_hook_connection cfg input pending gw wait interfere).response =
           none ∧
       (handle_hook_connection cfg input pending gw wait
           interfere).pendingAfter = pending) := by
  constructor
  · intro cfg input pending gw wait interfere
    obtain ⟨cid⟩ := cfg
    obtain ⟨so, ff⟩ := gw
    cases input with
    | readTimeout => rfl
    | emptyLine => rfl
    | line o =>
        cases o with
        | none => rfl
        | some req =>
            cases cid with
            | none => rfl
            | some c =>
                cases so with
                | none => rfl
                | some mid =>
                    cases wait with
                    | timedOut => rfl
                    | signaled =>
                        cases h : pyGet
                            (interfere (registryAfterPublish pending req mid))
                            req.request_id with
                        | none =>
                            simp [handle_hook_connection, h]
                        | some e =>
                            simp [handle_hook_connection, h, sendDecisionBack]
  · intro cfg input pending gw wait interfere h
    rcases h with h | h | h <;> subst h <;> exact ⟨rfl, rfl⟩

/-- Claim C8 witness: a timed-out read produces no response, leaves the
registry alone, and the connection is closed. -/
theorem c8_witness :
    (handle_hook_connection cfgOwner ReadResult.readTimeout [("A", entryU)]
        ⟨none, false⟩ WaitOutcome.timedOut id).response = none ∧
    (handle_hook_connection cfgOwner ReadResult.readTimeout [("A", entryU)]
        ⟨none, false⟩ WaitOutcome.timedOut id).pendingAfter =
      [("A", entryU)] :=
  c8_always_closed_no_response_on_bad_read.2 cfgOwner ReadResult.readTimeout
    [("A", entryU)] ⟨none, false⟩ WaitOutcome.timedOut id (Or.inl rfl)
